import Mathlib

/-!
Verification development for `icon-bg-wrangler` (`src/index.ts`), a Cloudflare
Worker that renders a web page to an image and caches the result in KV, keyed
by a SHA-256 fingerprint of the superjson-canonicalized `options` query
parameter of the target URL.  The file contains two handler variants: a
Durable-Object (`Browser`) variant that keeps a browser instance alive with a
keep-alive alarm, and a per-request variant (`export default`) that launches
and closes a browser on every cache miss.

The embedding below models the repository's own functions (`Browser.fetch`,
`Browser.alarm`, `hashString`, `getNumber`, `parseSearchParams`, the default
fetch handler) directly from the source.  External platform collaborators
(JSON / superjson serialization, `decodeURIComponent`, `parseInt`, SHA-256,
URL parsing, puppeteer, KV) are modelled explicitly; their fragments and
modelling assumptions are stated in the corresponding doc comments.
-/

/-! ## JSON value model

Values handled by `JSON.parse` / `JSON.stringify` (and by superjson on its
meta-free fragment).  Numbers are restricted to integers: the option payloads
relevant to this repository (`xMax`, `yMax`, strings, nested records) carry
integer numerals, and no claim depends on float formatting.  Object fields
are an association list in insertion order, exactly as a JavaScript object
built by `JSON.parse` stores (non-integer-like) keys. -/
inductive JVal where
  | null : JVal
  | bool (b : Bool) : JVal
  | num (n : Int) : JVal
  | str (s : String) : JVal
  | arr (elems : List JVal) : JVal
  | obj (fields : List (String × JVal)) : JVal
deriving Repr

/-- Lowercase hexadecimal digit for `n < 16`, as produced by
`Number.prototype.toString(16)`. -/
def hexChar (n : Nat) : Char :=
  if n < 10 then Char.ofNat (48 + n) else Char.ofNat (87 + n)

/-- Two lowercase hex digits of a value below 256. -/
def hex2 (n : Nat) : List Char :=
  [hexChar (n / 16 % 16), hexChar (n % 16)]

/-- `JSON.stringify` escaping of a single character inside a string literal:
quote and backslash are escaped, the control characters with short escapes use
them, other control characters use a `\u00xx` escape, everything else is
emitted literally. -/
def escapeChar (c : Char) : String :=
  if c = '"' then "\\\""
  else if c = '\\' then "\\\\"
  else if c = '\x08' then "\\b"
  else if c = '\x09' then "\\t"
  else if c = '\x0a' then "\\n"
  else if c = '\x0c' then "\\f"
  else if c = '\x0d' then "\\r"
  else if c.toNat < 32 then "\\u00" ++ String.mk (hex2 c.toNat)
  else String.singleton c

/-- `JSON.stringify` rendering of a string literal. -/
def quoteString (s : String) : String :=
  "\"" ++ String.join (s.data.map escapeChar) ++ "\""

mutual

/-- `JSON.stringify` on the modelled value fragment.  Object fields are
emitted in stored (insertion) order, with no whitespace, exactly as
`JSON.stringify` does. -/
def jsonStringify : JVal → String
  | .null => "null"
  | .bool true => "true"
  | .bool false => "false"
  | .num n => toString n
  | .str s => quoteString s
  | .arr l => "[" ++ stringifyElems l ++ "]"
  | .obj f => "\x7b" ++ stringifyFields f ++ "\x7d"

/-- Comma-separated rendering of array elements. -/
def stringifyElems : List JVal → String
  | [] => ""
  | [v] => jsonStringify v
  | v :: w :: rest => jsonStringify v ++ "," ++ stringifyElems (w :: rest)

/-- Comma-separated rendering of object fields. -/
def stringifyFields : List (String × JVal) → String
  | [] => ""
  | [(k, v)] => quoteString k ++ ":" ++ jsonStringify v
  | (k, v) :: w :: rest => quoteString k ++ ":" ++ jsonStringify v ++ "," ++ stringifyFields (w :: rest)

end

/-! ## JSON parser (models `JSON.parse` on the fragment) -/

/-- JSON insignificant whitespace. -/
def isJsonWs (c : Char) : Bool :=
  c = ' ' || c = '\x09' || c = '\x0a' || c = '\x0d'

/-- Skip JSON whitespace. -/
def skipWs : List Char → List Char
  | [] => []
  | c :: cs => if isJsonWs c then skipWs cs else c :: cs

/-- Value of a hexadecimal digit (either case), `none` otherwise. -/
def hexDigitVal (c : Char) : Option Nat :=
  if '0' ≤ c ∧ c ≤ '9' then some (c.toNat - 48)
  else if 'a' ≤ c ∧ c ≤ 'f' then some (c.toNat - 87)
  else if 'A' ≤ c ∧ c ≤ 'F' then some (c.toNat - 55)
  else none

/-- Body of a JSON string literal after the opening quote: returns the decoded
characters and the input remaining after the closing quote.  Handles the
standard escapes; a `\uXXXX` escape denoting a lone surrogate is out of the
modelled fragment and rejected. -/
def parseStrChars : List Char → Option (List Char × List Char)
  | [] => none
  | '"' :: rest => some ([], rest)
  | '\\' :: esc =>
    match esc with
    | '"' :: r => (parseStrChars r).map (fun p => ('"' :: p.1, p.2))
    | '\\' :: r => (parseStrChars r).map (fun p => ('\\' :: p.1, p.2))
    | '/' :: r => (parseStrChars r).map (fun p => ('/' :: p.1, p.2))
    | 'b' :: r => (parseStrChars r).map (fun p => ('\x08' :: p.1, p.2))
    | 'f' :: r => (parseStrChars r).map (fun p => ('\x0c' :: p.1, p.2))
    | 'n' :: r => (parseStrChars r).map (fun p => ('\x0a' :: p.1, p.2))
    | 'r' :: r => (parseStrChars r).map (fun p => ('\x0d' :: p.1, p.2))
    | 't' :: r => (parseStrChars r).map (fun p => ('\x09' :: p.1, p.2))
    | 'u' :: a :: b :: c :: d :: r =>
      match hexDigitVal a, hexDigitVal b, hexDigitVal c, hexDigitVal d with
      | some x1, some x2, some x3, some x4 =>
        let code := ((x1 * 16 + x2) * 16 + x3) * 16 + x4
        if 0xd800 ≤ code ∧ code < 0xe000 then none
        else (parseStrChars r).map (fun p => (Char.ofNat code :: p.1, p.2))
      | _, _, _, _ => none
    | _ => none
  | c :: rest =>
    if c.toNat < 32 then none
    else (parseStrChars rest).map (fun p => (c :: p.1, p.2))

/-- Take a maximal run of decimal digits. -/
def takeDigits : List Char → (List Char × List Char)
  | [] => ([], [])
  | c :: cs =>
    if c.isDigit then
      let p := takeDigits cs
      (c :: p.1, p.2)
    else ([], c :: cs)

/-- Numeric value of a list of decimal digits. -/
def digitsToNat (l : List Char) : Nat :=
  l.foldl (fun a c => a * 10 + (c.toNat - 48)) 0

/-- Replace the value stored under a key, keeping its position, or append the
binding at the end — JavaScript object assignment semantics. -/
def setField : List (String × JVal) → String → JVal → List (String × JVal)
  | [], k, v => [(k, v)]
  | (k0, v0) :: rest, k, v =>
    if k0 = k then (k0, v) :: rest else (k0, v0) :: setField rest k v

/-- Build an object from parsed members in order: duplicate keys keep their
first position with the last value, as `JSON.parse` does. -/
def dedupeFields (l : List (String × JVal)) : List (String × JVal) :=
  l.foldl (fun acc p => setField acc p.1 p.2) []

mutual

/-- Recursive-descent `JSON.parse` on the fragment, fuelled (the fuel is a
bound on recursion depth; `jsonParse` supplies enough for any input).  Integer
numerals only — a fraction or exponent makes the enclosing document fail to
parse, which narrows the modelled fragment but never mis-parses. -/
def parseVal : Nat → List Char → Option (JVal × List Char)
  | 0, _ => none
  | fuel + 1, cs0 =>
    match skipWs cs0 with
    | [] => none
    | '"' :: rest => (parseStrChars rest).map (fun p => (.str (String.mk p.1), p.2))
    | 'n' :: 'u' :: 'l' :: 'l' :: rest => some (.null, rest)
    | 't' :: 'r' :: 'u' :: 'e' :: rest => some (.bool true, rest)
    | 'f' :: 'a' :: 'l' :: 's' :: 'e' :: rest => some (.bool false, rest)
    | '[' :: rest =>
      match skipWs rest with
      | ']' :: r2 => some (.arr [], r2)
      | _ => (parseElems fuel rest).map (fun p => (.arr p.1, p.2))
    | c :: rest =>
      if c = '\x7b' then
        match skipWs rest with
        | c2 :: r2 =>
          if c2 = '\x7d' then some (.obj [], r2)
          else (parseFields fuel rest).map (fun p => (.obj (dedupeFields p.1), p.2))
        | [] => none
      else if c = '-' then
        match takeDigits rest with
        | ([], _) => none
        | (ds, r) =>
          if ds.length > 1 ∧ ds.headD '0' = '0' then none
          else some (.num (-(Int.ofNat (digitsToNat ds))), r)
      else if c.isDigit then
        let p := takeDigits (c :: rest)
        if p.1.length > 1 ∧ p.1.headD '0' = '0' then none
        else some (.num (Int.ofNat (digitsToNat p.1)), p.2)
      else none

/-- Elements of a non-empty JSON array, up to and including `]`. -/
def parseElems : Nat → List Char → Option (List JVal × List Char)
  | 0, _ => none
  | fuel + 1, cs =>
    match parseVal fuel cs with
    | none => none
    | some (v, rest) =>
      match skipWs rest with
      | ',' :: r2 => (parseElems fuel r2).map (fun p => (v :: p.1, p.2))
      | ']' :: r2 => some ([v], r2)
      | _ => none

/-- Members of a non-empty JSON object, up to and including the closing
brace. -/
def parseFields : Nat → List Char → Option (List (String × JVal) × List Char)
  | 0, _ => none
  | fuel + 1, cs =>
    match skipWs cs with
    | '"' :: rest =>
      match parseStrChars rest with
      | none => none
      | some (kcs, r1) =>
        match skipWs r1 with
        | ':' :: r2 =>
          match parseVal fuel r2 with
          | none => none
          | some (v, r3) =>
            match skipWs r3 with
            | c :: r4 =>
              if c = ',' then
                (parseFields fuel r4).map (fun p => ((String.mk kcs, v) :: p.1, p.2))
              else if c = '\x7d' then some ([(String.mk kcs, v)], r4)
              else none
            | [] => none
        | _ => none
    | _ => none

end

/-- `JSON.parse` on the modelled fragment: `none` models a thrown
`SyntaxError` (or an input outside the fragment). -/
def jsonParse (s : String) : Option JVal :=
  match parseVal (2 * s.length + 4) s.data with
  | some (v, rest) => if (skipWs rest).isEmpty then some v else none
  | none => none

/-- First value bound to a key in an object's field list. -/
def lookupField : List (String × JVal) → String → Option JVal
  | [], _ => none
  | (k, v) :: rest, key => if k = key then some v else lookupField rest key

/-- Modelled fragment of the external superjson library's `parse`: the payload
must be a JSON object with a `"json"` member and no `"meta"` member (i.e. no
non-JSON-native values such as Dates, bigints or `undefined`); the result is
the `"json"` member.  `none` models every path on which the real request
subsequently throws (invalid JSON, and a missing `"json"` member whose
`undefined` result crashes the later `parsedObj['xMax']` access), as well as
payloads outside the meta-free fragment. -/
def superjsonParse (s : String) : Option JVal :=
  match jsonParse s with
  | some (.obj fields) =>
    match lookupField fields "meta" with
    | some _ => none
    | none => lookupField fields "json"
  | _ => none

/-- Modelled fragment of superjson's `stringify` on meta-free values:
`JSON.stringify({json: v})` (the `meta` property is `undefined` and dropped by
`JSON.stringify`). -/
def superjsonStringify (v : JVal) : String :=
  "\x7b\"json\":" ++ jsonStringify v ++ "\x7d"

/-- The canonicalization pipeline applied to the raw `options` text in both
handler variants: `superjson.stringify(superjson.parse(text))`; `none` models
a throw. -/
def canonicalizeOptions (s : String) : Option String :=
  (superjsonParse s).map superjsonStringify

mutual

/-- Fuelled semantic equality of JSON values: object fields compare as
key→value maps (order-insensitive), arrays compare element-wise.  The fuel
bounds recursion depth; `JVal.equiv` supplies enough for its arguments. -/
def equivFuel : Nat → JVal → JVal → Bool
  | 0, _, _ => false
  | _ + 1, .null, .null => true
  | _ + 1, .bool a, .bool b => a = b
  | _ + 1, .num a, .num b => a = b
  | _ + 1, .str a, .str b => a = b
  | fuel + 1, .arr a, .arr b => equivElems fuel a b
  | fuel + 1, .obj a, .obj b => equivFieldsSub fuel a b && equivFieldsSub fuel b a
  | _ + 1, _, _ => false

/-- Element-wise equivalence of arrays, fuelled. -/
def equivElems : Nat → List JVal → List JVal → Bool
  | 0, _, _ => false
  | _ + 1, [], [] => true
  | fuel + 1, a :: as1, b :: bs1 => equivFuel fuel a b && equivElems fuel as1 bs1
  | _ + 1, _, _ => false

/-- Every field of the first object is matched by an equivalent field of the
second, fuelled. -/
def equivFieldsSub : Nat → List (String × JVal) → List (String × JVal) → Bool
  | 0, _, _ => false
  | _ + 1, [], _ => true
  | fuel + 1, (k, v) :: rest, other =>
    (match lookupField other k with
     | some w => equivFuel fuel v w
     | none => false) && equivFieldsSub fuel rest other

end

mutual

/-- Size of a JSON value, used to provide fuel. -/
def jvalSize : JVal → Nat
  | .null => 1
  | .bool _ => 1
  | .num _ => 1
  | .str _ => 1
  | .arr l => jvalSizeElems l + 1
  | .obj f => jvalSizeFields f + 1

/-- Total size of a list of JSON values. -/
def jvalSizeElems : List JVal → Nat
  | [] => 1
  | v :: rest => jvalSize v + jvalSizeElems rest + 1

/-- Total size of an object field list. -/
def jvalSizeFields : List (String × JVal) → Nat
  | [] => 1
  | (_, v) :: rest => jvalSize v + jvalSizeFields rest + 1

end

/-- Semantic equality of JSON values ("same fields with same values,
independent of field order"). -/
def JVal.equiv (a b : JVal) : Bool :=
  equivFuel (jvalSize a + jvalSize b + 1) a b

/-! ## SHA-256 and `hashString`

`hashString` in the source UTF-8-encodes its input (`TextEncoder`), digests
it with the platform's `crypto.subtle.digest('SHA-256', …)`, and renders the
digest bytes as lowercase hex via `byte.toString(16).padStart(2, '0')`.
The platform digest is modelled by a full implementation of FIPS 180-4
SHA-256 over byte lists, with 32-bit words as naturals reduced mod 2^32. -/

/-- UTF-8 encoding of one unicode scalar value, as produced by
`TextEncoder`. -/
def utf8Char (c : Char) : List Nat :=
  let n := c.toNat
  if n < 0x80 then [n]
  else if n < 0x800 then [0xc0 + n / 64, 0x80 + n % 64]
  else if n < 0x10000 then [0xe0 + n / 4096, 0x80 + n / 64 % 64, 0x80 + n % 64]
  else [0xf0 + n / 262144, 0x80 + n / 4096 % 64, 0x80 + n / 64 % 64, 0x80 + n % 64]

/-- UTF-8 encoding of a string (`new TextEncoder().encode(inputStr)`). -/
def utf8Encode (s : String) : List Nat :=
  s.data.flatMap utf8Char

/-- Addition of 32-bit words. -/
def add32 (a b : Nat) : Nat := (a + b) % 4294967296

/-- Right rotation of a 32-bit word by `k`. -/
def rotr32 (k n : Nat) : Nat :=
  ((n >>> k) ||| (n <<< (32 - k))) % 4294967296

/-- Bitwise complement of a 32-bit word. -/
def not32 (n : Nat) : Nat := Nat.xor n 4294967295

/-- SHA-256 `Ch` function. -/
def shaCh (x y z : Nat) : Nat := Nat.xor (Nat.land x y) (Nat.land (not32 x) z)

/-- SHA-256 `Maj` function. -/
def shaMaj (x y z : Nat) : Nat :=
  Nat.xor (Nat.xor (Nat.land x y) (Nat.land x z)) (Nat.land y z)

/-- SHA-256 `Σ0`. -/
def bigSigma0 (x : Nat) : Nat :=
  Nat.xor (Nat.xor (rotr32 2 x) (rotr32 13 x)) (rotr32 22 x)

/-- SHA-256 `Σ1`. -/
def bigSigma1 (x : Nat) : Nat :=
  Nat.xor (Nat.xor (rotr32 6 x) (rotr32 11 x)) (rotr32 25 x)

/-- SHA-256 `σ0`. -/
def smallSigma0 (x : Nat) : Nat :=
  Nat.xor (Nat.xor (rotr32 7 x) (rotr32 18 x)) (x >>> 3)

/-- SHA-256 `σ1`. -/
def smallSigma1 (x : Nat) : Nat :=
  Nat.xor (Nat.xor (rotr32 17 x) (rotr32 19 x)) (x >>> 10)

/-- The SHA-256 round constants. -/
def k256 : List Nat :=
  [1116352408, 1899447441, 3049323471, 3921009573, 961987163, 1508970993,
   2453635748, 2870763221, 3624381080, 310598401, 607225278, 1426881987,
   1925078388, 2162078206, 2614888103, 3248222580, 3835390401, 4022224774,
   264347078, 604807628, 770255983, 1249150122, 1555081692, 1996064986,
   2554220882, 2821834349, 2952996808, 3210313671, 3336571891, 3584528711,
   113926993, 338241895, 666307205, 773529912, 1294757372, 1396182291,
   1695183700, 1986661051, 2177026350, 2456956037, 2730485921, 2820302411,
   3259730800, 3345764771, 3516065817, 3600352804, 4094571909, 275423344,
   430227734, 506948616, 659060556, 883997877, 958139571, 1322822218,
   1537002063, 1747873779, 1955562222, 2024104815, 2227730452, 2361852424,
   2428436474, 2756734187, 3204031479, 3329325298]

/-- Working state of the compression function (eight 32-bit words). -/
structure Hash8 where
  a : Nat
  b : Nat
  c : Nat
  d : Nat
  e : Nat
  f : Nat
  g : Nat
  h : Nat
deriving Repr, DecidableEq

/-- The SHA-256 initial hash value. -/
def h256 : Hash8 :=
  ⟨1779033703, 3144134277, 1013904242, 2773480762, 1359893119, 2600822924, 528734635, 1541459225⟩

/-- Big-endian bytes of the 64-bit message bit length. -/
def lenBytes64 (n : Nat) : List Nat :=
  [n / 72057594037927936 % 256, n / 281474976710656 % 256, n / 1099511627776 % 256,
   n / 4294967296 % 256, n / 16777216 % 256, n / 65536 % 256, n / 256 % 256, n % 256]

/-- SHA-256 message padding: append `0x80`, zero bytes to 56 mod 64, and the
bit length as eight big-endian bytes. -/
def padMessage (msg : List Nat) : List Nat :=
  let z := (120 - (msg.length + 1) % 64) % 64
  msg ++ [128] ++ List.replicate z 0 ++ lenBytes64 (msg.length * 8)

/-- Group bytes into big-endian 32-bit words. -/
def toWords : List Nat → List Nat
  | b0 :: b1 :: b2 :: b3 :: rest =>
    (b0 * 16777216 + b1 * 65536 + b2 * 256 + b3) :: toWords rest
  | _ => []

/-- Split a byte list into 64-byte chunks (the fuel is the list length). -/
def toChunks : Nat → List Nat → List (List Nat)
  | 0, _ => []
  | _ + 1, [] => []
  | fuel + 1, l => l.take 64 :: toChunks fuel (l.drop 64)

/-- Extend the 16 message-schedule words to 64 by `n` applications of the
schedule recurrence. -/
def extendW : Nat → List Nat → List Nat
  | 0, w => w
  | n + 1, w =>
    let t := w.length
    let x := add32 (add32 (smallSigma1 (w.getD (t - 2) 0)) (w.getD (t - 7) 0))
                   (add32 (smallSigma0 (w.getD (t - 15) 0)) (w.getD (t - 16) 0))
    extendW n (w ++ [x])

/-- One round of the SHA-256 compression function on a (constant, schedule
word) pair. -/
def shaRound (st : Hash8) (kw : Nat × Nat) : Hash8 :=
  let t1 := add32 (add32 (add32 st.h (bigSigma1 st.e)) (add32 (shaCh st.e st.f st.g) kw.1)) kw.2
  let t2 := add32 (bigSigma0 st.a) (shaMaj st.a st.b st.c)
  ⟨add32 t1 t2, st.a, st.b, st.c, add32 st.d t1, st.e, st.f, st.g⟩

/-- Field-wise 32-bit addition of hash states. -/
def addHash (x y : Hash8) : Hash8 :=
  ⟨add32 x.a y.a, add32 x.b y.b, add32 x.c y.c, add32 x.d y.d,
   add32 x.e y.e, add32 x.f y.f, add32 x.g y.g, add32 x.h y.h⟩

/-- Process one 64-byte chunk. -/
def processChunk (st : Hash8) (chunk : List Nat) : Hash8 :=
  let w := extendW 48 (toWords chunk)
  addHash st ((k256.zip w).foldl shaRound st)

/-- Big-endian bytes of the final hash value. -/
def digestBytes (st : Hash8) : List Nat :=
  [st.a / 16777216 % 256, st.a / 65536 % 256, st.a / 256 % 256, st.a % 256,
   st.b / 16777216 % 256, st.b / 65536 % 256, st.b / 256 % 256, st.b % 256,
   st.c / 16777216 % 256, st.c / 65536 % 256, st.c / 256 % 256, st.c % 256,
   st.d / 16777216 % 256, st.d / 65536 % 256, st.d / 256 % 256, st.d % 256,
   st.e / 16777216 % 256, st.e / 65536 % 256, st.e / 256 % 256, st.e % 256,
   st.f / 16777216 % 256, st.f / 65536 % 256, st.f / 256 % 256, st.f % 256,
   st.g / 16777216 % 256, st.g / 65536 % 256, st.g / 256 % 256, st.g % 256,
   st.h / 16777216 % 256, st.h / 65536 % 256, st.h / 256 % 256, st.h % 256]

/-- SHA-256 digest of a byte list (models `crypto.subtle.digest('SHA-256', …)`). -/
def sha256 (msg : List Nat) : List Nat :=
  digestBytes ((toChunks (padMessage msg).length (padMessage msg)).foldl processChunk h256)

/-- `byte.toString(16)` on a `Uint8Array` element (a natural below 256): one
lowercase hex digit below 16, two otherwise. -/
def byteToHex (b : Nat) : List Char :=
  if b < 16 then [hexChar b] else [hexChar (b / 16 % 16), hexChar (b % 16)]

/-- `.padStart(2, '0')` on a hex rendering. -/
def padStart2 (l : List Char) : List Char :=
  if l.length < 2 then '0' :: l else l

/-- The hex join in `hashString`:
`hashArray.map(b => b.toString(16).padStart(2, '0')).join('')`. -/
def hexJoin (bytes : List Nat) : String :=
  String.mk (bytes.flatMap (fun b => padStart2 (byteToHex b)))

/-- `hashString` from the source: lowercase-hex SHA-256 digest of the UTF-8
encoding of the input. -/
def hashString (inputStr : String) : String :=
  hexJoin (sha256 (utf8Encode inputStr))

/-! ## Numeric coercion: `parseInt` and `getNumber` -/

/-- Whitespace skipped by `parseInt` (the common ASCII whitespace and
no-break space; further exotic Unicode space characters are outside the
modelled fragment). -/
def isJsSpace (c : Char) : Bool :=
  c = ' ' || c = '\x09' || c = '\x0a' || c = '\x0b' || c = '\x0c' || c = '\x0d' || c = '\xa0'

/-- Skip `parseInt` leading whitespace. -/
def skipJsWs : List Char → List Char
  | [] => []
  | c :: cs => if isJsSpace c then skipJsWs cs else c :: cs

/-- Take a maximal run of hexadecimal digits. -/
def takeHexDigits : List Char → (List Nat × List Char)
  | [] => ([], [])
  | c :: cs =>
    match hexDigitVal c with
    | some d =>
      let p := takeHexDigits cs
      (d :: p.1, p.2)
    | none => ([], c :: cs)

/-- Numeric value of a list of hex digit values. -/
def hexToNat (l : List Nat) : Nat :=
  l.foldl (fun a d => a * 16 + d) 0

/-- Decimal tail of `parseInt`: maximal digit run, `NaN` (`none`) when
empty. -/
def parseIntDec (cs : List Char) (sign : Int) : Option Int :=
  let p := takeDigits cs
  if p.1.isEmpty then none else some (sign * Int.ofNat (digitsToNat p.1))

/-- The platform's `parseInt(value)` with no radix argument: skip leading
whitespace, read an optional sign, infer radix 16 from a `0x`/`0X` prefix,
parse the maximal digit run and ignore the rest; `none` models `NaN`.
Values are exact integers (the double-precision rounding applied by the
platform to astronomically long digit strings is outside the fragment). -/
def jsParseInt (s : String) : Option Int :=
  let cs := skipJsWs s.data
  let signed : Int × List Char :=
    match cs with
    | '-' :: r => (-1, r)
    | '+' :: r => (1, r)
    | _ => (1, cs)
  match signed.2 with
  | '0' :: x :: rest =>
    if x = 'x' ∨ x = 'X' then
      match takeHexDigits rest with
      | ([], _) => none
      | (ds, _) => some (signed.1 * Int.ofNat (hexToNat ds))
    else parseIntDec signed.2 signed.1
  | _ => parseIntDec signed.2 signed.1

/-- `getNumber` from the source, on the modelled value domain: the input is
`parsedObj[key]`, i.e. either a JSON value or `undefined` (`none`).  A native
number is used directly (a JSON number is never `NaN`); a string goes through
`parseInt`, whose `NaN` becomes `undefined`; anything else is `undefined`. -/
def getNumber (value : Option JVal) : Option Int :=
  match value with
  | some (.num n) => some n
  | some (.str s) => jsParseInt s
  | _ => none

/-- JavaScript `a || b` on `getNumber`'s result: the default is substituted
whenever the left side is falsy, i.e. `undefined` or `0`. -/
def orDefault (v : Option Int) (dflt : Int) : Int :=
  match v with
  | some n => if n = 0 then dflt else n
  | none => dflt

/-- `parsedObj['xMax']`-style member access: fields of an object, `undefined`
on other values — except `null`, where the access throws (`.error`). -/
def jsGet : JVal → String → Except Unit (Option JVal)
  | .null, _ => .error ()
  | .obj fields, k => .ok (lookupField fields k)
  | _, _ => .ok none

/-! ## `decodeURIComponent` and `parseSearchParams` -/

/-- A `%`-escape: two hex digits after a literal `%`. -/
def pctByte : List Char → Option (Nat × List Char)
  | p :: h1 :: h2 :: rest =>
    if p = '%' then
      match hexDigitVal h1, hexDigitVal h2 with
      | some a, some b => some (16 * a + b, rest)
      | _, _ => none
    else none
  | _ => none

/-- A UTF-8 continuation byte. -/
def isCont (b : Nat) : Bool := 0x80 ≤ b && b < 0xc0

/-- Core of `decodeURIComponent` (fuelled by the input length): percent
escapes must form strictly valid UTF-8 (no overlong forms, surrogates or
out-of-range values), otherwise the platform function throws `URIError`,
modelled by `none`; other characters pass through unchanged. -/
def decodeUriCore : Nat → List Char → Option (List Char)
  | _, [] => some []
  | 0, _ :: _ => none
  | fuel + 1, c :: cs =>
    if c = '%' then
      match pctByte (c :: cs) with
      | none => none
      | some (b1, r1) =>
        if b1 < 0x80 then (decodeUriCore fuel r1).map (Char.ofNat b1 :: ·)
        else if b1 < 0xc2 then none
        else if b1 < 0xe0 then
          match pctByte r1 with
          | some (b2, r2) =>
            if isCont b2 then
              (decodeUriCore fuel r2).map (Char.ofNat ((b1 - 0xc0) * 64 + (b2 - 0x80)) :: ·)
            else none
          | none => none
        else if b1 < 0xf0 then
          match pctByte r1 with
          | some (b2, r2) =>
            match pctByte r2 with
            | some (b3, r3) =>
              if isCont b2 && isCont b3 then
                let code := (b1 - 0xe0) * 4096 + (b2 - 0x80) * 64 + (b3 - 0x80)
                if code < 0x800 ∨ (0xd800 ≤ code ∧ code < 0xe000) then none
                else (decodeUriCore fuel r3).map (Char.ofNat code :: ·)
              else none
            | none => none
          | none => none
        else if b1 < 0xf5 then
          match pctByte r1 with
          | some (b2, r2) =>
            match pctByte r2 with
            | some (b3, r3) =>
              match pctByte r3 with
              | some (b4, r4) =>
                if isCont b2 && isCont b3 && isCont b4 then
                  let code := (b1 - 0xf0) * 262144 + (b2 - 0x80) * 4096 +
                              (b3 - 0x80) * 64 + (b4 - 0x80)
                  if code < 0x10000 ∨ code ≥ 0x110000 then none
                  else (decodeUriCore fuel r4).map (Char.ofNat code :: ·)
                else none
              | none => none
            | none => none
          | none => none
        else none
    else (decodeUriCore fuel cs).map (c :: ·)

/-- The platform's `decodeURIComponent`; `none` models a thrown `URIError`. -/
def decodeURIComponent (s : String) : Option String :=
  (decodeUriCore s.data.length s.data).map String.mk

/-- The value of a parsed search parameter: a string, or an array of strings
for repeated keys. -/
inductive ParamVal where
  | str (s : String) : ParamVal
  | arr (l : List String) : ParamVal
deriving Repr, DecidableEq

/-- `ParsedParams` from the source: a JavaScript object, modelled as an
association list in insertion order. -/
abbrev ParsedParams := List (String × ParamVal)

/-- First value bound to a key. -/
def lookupParam : ParsedParams → String → Option ParamVal
  | [], _ => none
  | (k, v) :: rest, key => if k = key then some v else lookupParam rest key

/-- JavaScript truthiness of a parameter value (`if (params[key])`): an empty
string is falsy, everything else stored is truthy. -/
def paramTruthy : ParamVal → Bool
  | .str s => s ≠ ""
  | .arr _ => true

/-- Assignment `params[key] = v`: replace in place, or append. -/
def setParam : ParsedParams → String → ParamVal → ParsedParams
  | [], k, v => [(k, v)]
  | (k0, v0) :: rest, k, v =>
    if k0 = k then (k0, v) :: rest else (k0, v0) :: setParam rest k v

/-- One accumulation step of `parseSearchParams`'s loop body, after both
decodes succeeded: skip empty keys; on a truthy existing binding turn it
into / extend an array, otherwise assign the string. -/
def insertParam (params : ParsedParams) (key value : String) : ParsedParams :=
  if key = "" then params
  else
    match lookupParam params key with
    | some pv =>
      if paramTruthy pv then
        match pv with
        | .arr l => setParam params key (.arr (l ++ [value]))
        | .str s0 => setParam params key (.arr [s0, value])
      else setParam params key (.str value)
    | none => params ++ [(key, .str value)]

/-- `String.prototype.split` with a one-character separator, on character
lists: splitting the empty string yields one empty piece, and separators at
the edges yield empty pieces, exactly as in JavaScript. -/
def splitOnChar (sep : Char) : List Char → List (List Char)
  | [] => [[]]
  | c :: cs =>
    let r := splitOnChar sep cs
    if c = sep then [] :: r
    else
      match r with
      | h :: t => (c :: h) :: t
      | [] => [[c]]

/-- Percent-decoding of a character-list piece (`decodeURIComponent` on a
split component). -/
def decodePiece (piece : List Char) : Option String :=
  (decodeUriCore piece.length piece).map String.mk

/-- The loop of `parseSearchParams` over the `&`-separated pieces; `none`
models a `URIError` thrown by `decodeURIComponent`.  Each piece is split on
`=`; `pair[0]` is the first component and `pair[1] || ''` the second or the
empty string. -/
def parseParamsLoop : List (List Char) → ParsedParams → Option ParsedParams
  | [], acc => some acc
  | piece :: rest, acc =>
    let pair := splitOnChar '=' piece
    match decodePiece (pair.headD []), decodePiece (pair.getD 1 []) with
    | some key, some value => parseParamsLoop rest (insertParam acc key value)
    | _, _ => none

/-- `parseSearchParams` from the source: drop the leading character
(`queryString.slice(1)`), split on `&`, split each piece on `=` (taking the
first two components, with a missing value read as the empty string),
percent-decode key and value, and accumulate into a parameter object. -/
def parseSearchParams (queryString : String) : Option ParsedParams :=
  parseParamsLoop (splitOnChar '&' (queryString.data.drop 1)) []

/-- Whether `pat` occurs as a contiguous run at the front of `l`. -/
def leadMatch : List Char → List Char → Bool
  | [], _ => true
  | _ :: _, [] => false
  | p :: ps, c :: cs => p = c && leadMatch ps cs

/-- Whether `pat` occurs as a contiguous run anywhere in `l`. -/
def hasSubChars (pat : List Char) : List Char → Bool
  | [] => leadMatch pat []
  | c :: cs => leadMatch pat (c :: cs) || hasSubChars pat cs

/-- `String.prototype.includes`: substring occurrence. -/
def hasSub (pat s : String) : Bool :=
  hasSubChars pat.data s.data

/-! ## The Browser Lifecycle Manager (Durable Object `Browser`)

State, request and environment model.  Platform URL handling is modelled as
given data: `Req.urlParam` is `searchParams.get('url')` of the inbound URL
(the forgiving `URLSearchParams` decoder never throws), and `Req.target` is
the result of `new URL(urlStr)` — `none` when the constructor throws, and
otherwise the `.search` component, the only part of the target URL the
control flow inspects (`url.href` is consumed opaquely by `page.goto`).
Puppeteer is modelled by `BrowserHandle`: `launch` yields a handle or throws,
`isConnected()` reads `connected`, `close()` clears `connected`, and
`newPage()`/rendering succeeds exactly on a connected handle (a disconnected
handle rejects).  A render deterministically produces `FetchCtx.shot`. -/

/-- A puppeteer browser handle. -/
structure BrowserHandle where
  id : Nat
  connected : Bool
deriving Repr, DecidableEq

/-- The Durable Object's state: the keep-alive counter, the browser field of
the class, and the storage alarm (`storage.getAlarm()`, an epoch-millisecond
deadline or `null`). -/
structure DOState where
  keptAliveInSeconds : Nat
  browser : Option BrowserHandle
  alarm : Option Nat
deriving Repr, DecidableEq

/-- The state set up by the `Browser` constructor. -/
def Browser.startState : DOState :=
  { keptAliveInSeconds := 0, browser := none, alarm := none }

/-- `KEEP_BROWSER_ALIVE_IN_SECONDS` from the source. -/
def KEEP_BROWSER_ALIVE_IN_SECONDS : Nat := 60

/-- Per-request environment: the outcome of `puppeteer.launch` (`.error`
models a throw, carrying the message interpolated into the log), the KV
namespace contents at read time, the bytes a screenshot of the target page
produces, and `Date.now()`. -/
structure FetchCtx where
  launch : Except String BrowserHandle
  kv : String → Option (List Nat)
  shot : List Nat
  now : Nat

/-- An inbound request: the raw request URL (inspected only for the
`/favicon.ico` substring), the decoded top-level `url` parameter, and the
parsed target URL. -/
structure Req where
  url : String
  urlParam : Option String
  target : Option String
deriving Repr

/-- A `Response` body: absent (`new Response()` / `new Response(null)`),
text, or binary image bytes. -/
inductive Body where
  | empty : Body
  | text (s : String) : Body
  | blob (b : List Nat) : Body
deriving Repr, DecidableEq

/-- An HTTP response: every response the source constructs carries the
default status 200. -/
structure Response where
  status : Nat
  body : Body
  contentType : Option String
deriving Repr, DecidableEq

/-- Observable per-request trace: console logs, whether the render branch was
entered and completed, the keep-alive counter at the moment the render began,
the canonical options string and its hash, the resolved viewport, and the KV
writes (key, bytes, `expirationTtl` seconds). -/
structure Trace where
  logs : List String
  renderAttempted : Bool
  rendered : Bool
  renderStartCounter : Option Nat
  canonical : Option String
  cacheKey : Option String
  viewport : Option (Int × Int)
  puts : List (String × List Nat × Nat)
deriving Repr, DecidableEq

/-- The trace at the start of a request. -/
def Trace.init : Trace :=
  { logs := [], renderAttempted := false, rendered := false,
    renderStartCounter := none, canonical := none, cacheKey := none,
    viewport := none, puts := [] }

/-- Append a console log line. -/
def Trace.log (tr : Trace) (msg : String) : Trace :=
  { tr with logs := tr.logs ++ [msg] }

/-- Result of a handler invocation: a response, or an unhandled exception
(`thrown`), each with the Durable Object state left behind and the trace. -/
inductive Outcome where
  | ok (resp : Response) (st : DOState) (tr : Trace) : Outcome
  | thrown (st : DOState) (tr : Trace) : Outcome
deriving Repr

/-- The state an outcome leaves behind. -/
def Outcome.state : Outcome → DOState
  | .ok _ st _ => st
  | .thrown st _ => st

/-- The trace of an outcome. -/
def Outcome.trace : Outcome → Trace
  | .ok _ _ tr => tr
  | .thrown _ tr => tr

/-- Whether the handler returned normally. -/
def Outcome.isOk : Outcome → Bool
  | .ok _ _ _ => true
  | .thrown _ _ => false

/-- The `'Please add an ?url=…'` guidance response. -/
def missingUrlResponse : Response :=
  { status := 200, body := .text "Please add an ?url=https://example.com/ parameter",
    contentType := none }

/-- The `'Please add options to your url'` guidance response. -/
def missingOptionsResponse : Response :=
  { status := 200, body := .text "Please add options to your url", contentType := none }

/-- Truthy-string extraction of the `options` parameter, as guarded by
`parsed && parsedOptions && typeof parsedOptions === 'string'` (an absent
key, an array value, and the empty string all fail the guard). -/
def truthyStringOption (params : ParsedParams) : Option String :=
  match lookupParam params "options" with
  | some (.str v) => if v = "" then none else some v
  | _ => none

/-- Lines 73–80 of the source: `if (!this.browser || !this.browser.isConnected())`,
log, attempt the launch, and on failure log and keep the old browser field. -/
def launchIfNeeded (s : DOState) (ctx : FetchCtx) (tr : Trace) : DOState × Trace :=
  if (match s.browser with | none => true | some hb => !hb.connected) then
    let tr2 := tr.log "Browser DO: Starting new instance"
    match ctx.launch with
    | .ok hb => ({ s with browser := some hb }, tr2)
    | .error e => (s, tr2.log ("Browser DO: Could not start browser instance. Error: " ++ e))
  else (s, tr)

/-- Lines 84–99 of the source: `if (img === null && this.browser)`, reset the
counter, open a page (which rejects on a disconnected handle), resolve the
viewport (`parsedObj['xMax']` throws when `parsedObj` is `null`), navigate,
screenshot, write to KV with a 24-hour TTL, close the page, and reset the
counter again.  `none` models a throw inside the branch; otherwise the image
(cached or fresh), state and trace come back. -/
def renderStage (s1 : DOState) (ctx : FetchCtx) (parsedObj : JVal)
    (optionsHashed : String) (img0 : Option (List Nat)) (tr2 : Trace) :
    Option (Option (List Nat) × DOState × Trace) :=
  match img0, s1.browser with
  | none, some hb =>
    let s2 := { s1 with keptAliveInSeconds := 0 }
    let tr3 := { tr2 with renderAttempted := true,
                          renderStartCounter := some s2.keptAliveInSeconds }
    if hb.connected then
      match jsGet parsedObj "xMax", jsGet parsedObj "yMax" with
      | .ok mx, .ok my =>
        let xMax := orDefault (getNumber mx) 360
        let yMax := orDefault (getNumber my) 1600
        let img := ctx.shot
        let s3 := { s2 with keptAliveInSeconds := 0 }
        let tr4 := { tr3 with rendered := true, viewport := some (xMax, yMax),
                              puts := tr3.puts ++ [(optionsHashed, img, 60 * 60 * 24)] }
        some (some img, s3, tr4)
      | _, _ => none
    else none
  | _, _ => some (img0, s1, tr2)

/-- Lines 103–109 of the source: if `storage.getAlarm()` is `null`, set an
alarm 10 seconds from now. -/
def armAlarmIfNone (s : DOState) (now : Nat) (tr : Trace) : DOState × Trace :=
  match s.alarm with
  | none => ({ s with alarm := some (now + 10 * 1000) }, tr.log "Browser DO: setting alarm")
  | some _ => (s, tr)

/-- Steps of `Browser.fetch` from the decoded options string onward (the
body of the `if (parsed && parsedOptions && …)` block): superjson
canonicalization and hashing, conditional launch, KV lookup, conditional
render with the two counter resets, alarm arming, and the image response. -/
def Browser.mainPath (s : DOState) (ctx : FetchCtx) (optionsText : String) : Outcome :=
  match superjsonParse optionsText with
  | none => .thrown s Trace.init
  | some parsedObj =>
    let optionsStr := superjsonStringify parsedObj
    let optionsHashed := hashString optionsStr
    let tr1 := { Trace.init with canonical := some optionsStr, cacheKey := some optionsHashed }
    let launched := launchIfNeeded s ctx tr1
    let img0 := ctx.kv optionsHashed
    match renderStage launched.1 ctx parsedObj optionsHashed img0 launched.2 with
    | none =>
      .thrown { launched.1 with keptAliveInSeconds := 0 }
        { launched.2 with renderAttempted := true, renderStartCounter := some 0 }
    | some (img, s3, tr4) =>
      let armRes := armAlarmIfNone s3 ctx.now tr4
      let body : Body :=
        match img with
        | some b => .blob b
        | none => .empty
      .ok { status := 200, body := body, contentType := some "image/jpeg" }
        armRes.1 armRes.2

/-- `Browser.fetch` from the source: favicon short-circuit, `url` parameter
validation, target URL parsing, search parameter parsing, `options`
validation, then the main path. -/
def Browser.fetch (s : DOState) (ctx : FetchCtx) (req : Req) : Outcome :=
  if hasSub "/favicon.ico" req.url then
    .ok { status := 200, body := .empty, contentType := none } s Trace.init
  else
    match req.urlParam with
    | none => .ok missingUrlResponse s Trace.init
    | some _ =>
      match req.target with
      | none => .thrown s Trace.init
      | some search =>
        match parseSearchParams search with
        | none => .thrown s Trace.init
        | some params =>
          match truthyStringOption params with
          | none => .ok missingOptionsResponse s Trace.init
          | some v => Browser.mainPath s ctx v

/-- `Browser.alarm` from the source.  The platform consumes a fired alarm
before the handler runs, so the stored alarm starts out `null`; the handler
increments the counter by 10, reschedules a 10-second tick below the
ceiling, and otherwise closes the browser — note that it only calls
`close()` (modelled as dropping the connection) and never assigns
`this.browser = null`. -/
def Browser.alarm (s : DOState) (now : Nat) : DOState × List String :=
  let s1 := { s with alarm := none,
                     keptAliveInSeconds := s.keptAliveInSeconds + 10 }
  if s1.keptAliveInSeconds < KEEP_BROWSER_ALIVE_IN_SECONDS then
    ({ s1 with alarm := some (now + 10 * 1000) },
     ["Browser DO: has been kept alive for " ++ toString s1.keptAliveInSeconds ++
      " seconds. Extending lifespan."])
  else
    let msg := "Browser DO: exceeded life of " ++ toString KEEP_BROWSER_ALIVE_IN_SECONDS ++ "s."
    match s1.browser with
    | some hb =>
      ({ s1 with browser := some { hb with connected := false } }, [msg, "Closing browser."])
    | none => (s1, [msg])

/-! ## The per-request variant (`export default` fetch handler)

The second handler in the source file: identical parsing, canonicalization,
hashing and caching, but the browser is launched inside the cache-miss branch
(an unhandled launch failure throws) and closed after the render; there is no
Durable Object state and no alarm. -/

/-- Result of the per-request handler: no actor state. -/
inductive Outcome2 where
  | ok (resp : Response) (tr : Trace) : Outcome2
  | thrown (tr : Trace) : Outcome2
deriving Repr

/-- The trace of a per-request outcome. -/
def Outcome2.trace : Outcome2 → Trace
  | .ok _ tr => tr
  | .thrown tr => tr

/-- Steps of the per-request handler from the decoded options string
onward. -/
def defaultMainPath (ctx : FetchCtx) (optionsText : String) : Outcome2 :=
  match superjsonParse optionsText with
  | none => .thrown Trace.init
  | some parsedObj =>
    let optionsStr := superjsonStringify parsedObj
    let optionsHashed := hashString optionsStr
    let tr1 := { Trace.init with canonical := some optionsStr, cacheKey := some optionsHashed }
    let img0 := ctx.kv optionsHashed
    match img0 with
    | some b =>
      .ok { status := 200, body := .blob b, contentType := some "image/jpeg" } tr1
    | none =>
      match ctx.launch with
      | .error _ => .thrown tr1
      | .ok hb =>
        let tr2 := { tr1 with renderAttempted := true }
        if hb.connected then
          match jsGet parsedObj "xMax", jsGet parsedObj "yMax" with
          | .ok mx, .ok my =>
            let xMax := orDefault (getNumber mx) 360
            let yMax := orDefault (getNumber my) 1600
            let img := ctx.shot
            let tr3 := { tr2 with rendered := true, viewport := some (xMax, yMax),
                                  puts := tr2.puts ++ [(optionsHashed, img, 60 * 60 * 24)] }
            .ok { status := 200, body := .blob img, contentType := some "image/jpeg" } tr3
          | _, _ => .thrown tr2
        else .thrown tr2

/-- The `export default` fetch handler from the source (the Worker entry of
the per-request variant; the Durable Object variant's Worker entry simply
forwards to the single `Browser` instance). -/
def defaultFetch (ctx : FetchCtx) (req : Req) : Outcome2 :=
  if hasSub "/favicon.ico" req.url then
    .ok { status := 200, body := .empty, contentType := none } Trace.init
  else
    match req.urlParam with
    | none => .ok missingUrlResponse Trace.init
    | some _ =>
      match req.target with
      | none => .thrown Trace.init
      | some search =>
        match parseSearchParams search with
        | none => .thrown Trace.init
        | some params =>
          match truthyStringOption params with
          | none => .ok missingOptionsResponse Trace.init
          | some v => defaultMainPath ctx v

/-- A lowercase hexadecimal digit (`0`–`9`, `a`–`f`). -/
def isLowerHexDigit (c : Char) : Bool :=
  c.isDigit || ('a' ≤ c && c ≤ 'f')

/-- The relation between an outcome of the Durable Object handler and an
outcome of the per-request handler asserted by the refinement claim: both
throw, or both respond with the same response and agree on the canonical
options string, the cache key, the resolved viewport and the KV writes
(including their TTL). -/
def outcomesAgree : Outcome → Outcome2 → Prop
  | .ok r1 _ t1, .ok r2 t2 =>
    r1 = r2 ∧ t1.canonical = t2.canonical ∧ t1.cacheKey = t2.cacheKey ∧
    t1.viewport = t2.viewport ∧ t1.puts = t2.puts
  | .thrown _ _, .thrown _ => True
  | _, _ => False

/-! ## Concrete instances used by counterexamples and witnesses -/

/-- A context whose launch succeeds with a connected handle. -/
def exCtxOk : FetchCtx :=
  { launch := .ok ⟨1, true⟩, kv := fun _ => none, shot := [9, 9], now := 1000 }

/-- A context whose launch throws. -/
def exCtxLaunchFail : FetchCtx :=
  { launch := .error "launch failed", kv := fun _ => none, shot := [], now := 0 }

/-- A main-path request: target options payload `{"json":{"xMax":480}}`. -/
def exReqMain : Req :=
  { url := "https://w.dev/?url=t", urlParam := some "t",
    target := some "?options=%7B%22json%22%3A%7B%22xMax%22%3A480%7D%7D" }

/-- A main-path request whose options payload is `{"json":{"xMax":0}}`. -/
def exReqZero : Req :=
  { url := "https://w.dev/?url=t", urlParam := some "t",
    target := some "?options=%7B%22json%22%3A%7B%22xMax%22%3A0%7D%7D" }

/-- A favicon request. -/
def exReqFavicon : Req :=
  { url := "https://w.dev/favicon.ico", urlParam := none, target := none }

/-- A request with no top-level `url` parameter. -/
def exReqNoUrl : Req :=
  { url := "https://w.dev/", urlParam := none, target := none }

/-- A request whose target URL query contains an undecodable percent escape
(and no `options` parameter). -/
def exReqBadQuery : Req :=
  { url := "https://w.dev/?url=t", urlParam := some "t", target := some "?%" }

/-- A state holding a stale, disconnected browser handle. -/
def exStateStale : DOState :=
  { keptAliveInSeconds := 0, browser := some ⟨7, false⟩, alarm := none }

/-- A state whose next alarm tick reaches the 60-second ceiling. -/
def c1State : DOState :=
  { keptAliveInSeconds := 50, browser := some ⟨1, true⟩, alarm := some 5000 }

/-- Options payload `{"json":{"a":1,"b":2}}`. -/
def c2s1 : String := "\x7b\"json\":\x7b\"a\":1,\"b\":2\x7d\x7d"

/-- The same payload with the two fields in the opposite order. -/
def c2s2 : String := "\x7b\"json\":\x7b\"b\":2,\"a\":1\x7d\x7d"

/-- Options payload `{"json":{"a":1}}` in compact form. -/
def c2w1 : String := "\x7b\"json\":\x7b\"a\":1\x7d\x7d"

/-- The same payload with insignificant whitespace. -/
def c2w2 : String := " \x7b \"json\" : \x7b \"a\" : 1 \x7d \x7d "

/-- The record both `c2w1` and `c2w2` decode to. -/
def c2wVal : JVal := .obj [("a", .num 1)]

/-- The response `Browser.fetch` produces on `exReqMain` from the fresh state
under `exCtxOk`. -/
def c7wResp : Response :=
  { status := 200, body := .blob [9, 9], contentType := some "image/jpeg" }

/-- The state `Browser.fetch` leaves behind on that request. -/
def c7wState : DOState :=
  { keptAliveInSeconds := 0, browser := some ⟨1, true⟩, alarm := some 11000 }

/-- The trace of that request. -/
def c7wTrace : Trace :=
  { logs := ["Browser DO: Starting new instance", "Browser DO: setting alarm"],
    renderAttempted := true, rendered := true, renderStartCounter := some 0,
    canonical := some "\x7b\"json\":\x7b\"xMax\":480\x7d\x7d",
    cacheKey := some "a5f84c1def429022a2d0b096498718ba1360995f5120bb79dcf2f9cfecccab87",
    viewport := some (480, 1600),
    puts := [("a5f84c1def429022a2d0b096498718ba1360995f5120bb79dcf2f9cfecccab87",
              [9, 9], 86400)] }

/-! ## Helper lemmas about the request stages -/

theorem launchIfNeeded_kept (s : DOState) (ctx : FetchCtx) (tr : Trace) :
    (launchIfNeeded s ctx tr).1.keptAliveInSeconds = s.keptAliveInSeconds := by
  unfold launchIfNeeded
  split
  · split <;> rfl
  · rfl

theorem launchIfNeeded_alarm (s : DOState) (ctx : FetchCtx) (tr : Trace) :
    (launchIfNeeded s ctx tr).1.alarm = s.alarm := by
  unfold launchIfNeeded
  split
  · split <;> rfl
  · rfl

theorem launchIfNeeded_trace (s : DOState) (ctx : FetchCtx) (tr : Trace) :
    (launchIfNeeded s ctx tr).2.canonical = tr.canonical ∧
    (launchIfNeeded s ctx tr).2.cacheKey = tr.cacheKey ∧
    (launchIfNeeded s ctx tr).2.viewport = tr.viewport ∧
    (launchIfNeeded s ctx tr).2.puts = tr.puts ∧
    (launchIfNeeded s ctx tr).2.rendered = tr.rendered ∧
    (launchIfNeeded s ctx tr).2.renderAttempted = tr.renderAttempted ∧
    (launchIfNeeded s ctx tr).2.renderStartCounter = tr.renderStartCounter := by
  unfold launchIfNeeded
  split
  · split <;> exact ⟨rfl, rfl, rfl, rfl, rfl, rfl, rfl⟩
  · exact ⟨rfl, rfl, rfl, rfl, rfl, rfl, rfl⟩

theorem launchIfNeeded_connected (s : DOState) (ctx : FetchCtx) (tr : Trace)
    (hb : BrowserHandle) (hl : ctx.launch = .ok hb) (hc : hb.connected = true) :
    ∃ hb2, (launchIfNeeded s ctx tr).1.browser = some hb2 ∧ hb2.connected = true := by
  unfold launchIfNeeded
  split
  · rw [hl]
    exact ⟨hb, rfl, hc⟩
  · rename_i hcond
    cases hbr : s.browser with
    | none => rw [hbr] at hcond; simp at hcond
    | some h0 =>
      rw [hbr] at hcond
      dsimp only at hcond
      refine ⟨h0, by simp only [hbr], ?_⟩
      cases hcv : h0.connected
      · rw [hcv] at hcond; exact absurd rfl hcond
      · rfl

theorem armAlarmIfNone_kept (s : DOState) (now : Nat) (tr : Trace) :
    (armAlarmIfNone s now tr).1.keptAliveInSeconds = s.keptAliveInSeconds := by
  unfold armAlarmIfNone
  split <;> rfl

theorem armAlarmIfNone_browser (s : DOState) (now : Nat) (tr : Trace) :
    (armAlarmIfNone s now tr).1.browser = s.browser := by
  unfold armAlarmIfNone
  split <;> rfl

theorem armAlarmIfNone_alarm_of_none (s : DOState) (now : Nat) (tr : Trace)
    (h : s.alarm = none) :
    (armAlarmIfNone s now tr).1.alarm = some (now + 10 * 1000) := by
  unfold armAlarmIfNone
  rw [h]

theorem armAlarmIfNone_alarm_of_some (s : DOState) (now : Nat) (tr : Trace)
    (t : Nat) (h : s.alarm = some t) :
    (armAlarmIfNone s now tr).1.alarm = some t := by
  unfold armAlarmIfNone
  rw [h]
  exact h

theorem armAlarmIfNone_trace (s : DOState) (now : Nat) (tr : Trace) :
    (armAlarmIfNone s now tr).2.canonical = tr.canonical ∧
    (armAlarmIfNone s now tr).2.cacheKey = tr.cacheKey ∧
    (armAlarmIfNone s now tr).2.viewport = tr.viewport ∧
    (armAlarmIfNone s now tr).2.puts = tr.puts ∧
    (armAlarmIfNone s now tr).2.rendered = tr.rendered ∧
    (armAlarmIfNone s now tr).2.renderAttempted = tr.renderAttempted ∧
    (armAlarmIfNone s now tr).2.renderStartCounter = tr.renderStartCounter := by
  unfold armAlarmIfNone
  split <;> exact ⟨rfl, rfl, rfl, rfl, rfl, rfl, rfl⟩

theorem renderStage_some_rendered (s1 : DOState) (ctx : FetchCtx) (p : JVal)
    (key : String) (img0 : Option (List Nat)) (tr2 : Trace)
    (img : Option (List Nat)) (s3 : DOState) (tr4 : Trace)
    (heq : renderStage s1 ctx p key img0 tr2 = some (img, s3, tr4))
    (h0 : tr2.rendered = false) (hr : tr4.rendered = true) :
    s3.keptAliveInSeconds = 0 ∧ tr4.renderStartCounter = some 0 := by
  unfold renderStage at heq
  split at heq
  · dsimp only at heq
    split at heq
    · split at heq
      · cases heq
        exact ⟨rfl, rfl⟩
      · cases heq
    · cases heq
  · cases heq
    rw [h0] at hr
    cases hr

theorem renderStage_some_alarm (s1 : DOState) (ctx : FetchCtx) (p : JVal)
    (key : String) (img0 : Option (List Nat)) (tr2 : Trace)
    (img : Option (List Nat)) (s3 : DOState) (tr4 : Trace)
    (heq : renderStage s1 ctx p key img0 tr2 = some (img, s3, tr4)) :
    s3.alarm = s1.alarm ∧ s3.browser = s1.browser := by
  unfold renderStage at heq
  split at heq
  · dsimp only at heq
    split at heq
    · split at heq
      · cases heq
        exact ⟨rfl, rfl⟩
      · cases heq
    · cases heq
  · cases heq
    exact ⟨rfl, rfl⟩

theorem renderStage_hit (s1 : DOState) (ctx : FetchCtx) (p : JVal)
    (key : String) (b : List Nat) (tr2 : Trace) :
    renderStage s1 ctx p key (some b) tr2 = some (some b, s1, tr2) := by
  unfold renderStage
  rfl

theorem renderStage_miss_nobrowser (s1 : DOState) (ctx : FetchCtx) (p : JVal)
    (key : String) (tr2 : Trace) (h : s1.browser = none) :
    renderStage s1 ctx p key none tr2 = some (none, s1, tr2) := by
  unfold renderStage
  rw [h]

theorem renderStage_miss_connected (s1 : DOState) (ctx : FetchCtx) (p : JVal)
    (key : String) (tr2 : Trace) (hb2 : BrowserHandle)
    (hbr : s1.browser = some hb2) (hconn : hb2.connected = true) :
    renderStage s1 ctx p key none tr2 =
      (match jsGet p "xMax", jsGet p "yMax" with
       | .ok mx, .ok my =>
         some (some ctx.shot, { s1 with keptAliveInSeconds := 0 },
           { tr2 with renderAttempted := true, renderStartCounter := some 0,
                      rendered := true,
                      viewport := some (orDefault (getNumber mx) 360,
                                        orDefault (getNumber my) 1600),
                      puts := tr2.puts ++ [(key, ctx.shot, 60 * 60 * 24)] })
       | _, _ => none) := by
  unfold renderStage
  rw [hbr]
  simp only [hconn, if_true]


theorem mainPath_rendered_state (s : DOState) (ctx : FetchCtx) (v : String)
    (resp : Response) (s2 : DOState) (tr : Trace)
    (h : Browser.mainPath s ctx v = .ok resp s2 tr) (hr : tr.rendered = true) :
    tr.renderStartCounter = some 0 ∧ s2.keptAliveInSeconds = 0 := by
  unfold Browser.mainPath at h
  split at h
  · exact Outcome.noConfusion h
  · dsimp only at h
    split at h
    · exact Outcome.noConfusion h
    · rename_i img s3 tr4 heq
      cases h
      have h4 : tr4.rendered = true := by
        rw [(armAlarmIfNone_trace s3 ctx.now tr4).2.2.2.2.1] at hr
        exact hr
      have h2 := renderStage_some_rendered _ _ _ _ _ _ _ _ _ heq
        (by rw [(launchIfNeeded_trace _ _ _).2.2.2.2.1]; rfl) h4
      exact ⟨by rw [(armAlarmIfNone_trace s3 ctx.now tr4).2.2.2.2.2.2]; exact h2.2,
             by rw [armAlarmIfNone_kept]; exact h2.1⟩

/-! ## Claim theorems -/

/-- Claim C1, counterexample: at a state whose counter reaches the 60-second
ceiling on this tick with a live browser present, the alarm handler closes
the browser but does **not** clear the handle — the browser field still holds
the (now disconnected) handle instead of returning to the no-browser state;
no new alarm is scheduled. -/
theorem c1_alarm_counterexample :
    KEEP_BROWSER_ALIVE_IN_SECONDS ≤ c1State.keptAliveInSeconds + 10 ∧
    c1State.browser = some ⟨1, true⟩ ∧
    (Browser.alarm c1State 0).1.browser = some ⟨1, false⟩ ∧
    (Browser.alarm c1State 0).1.browser ≠ none ∧
    (Browser.alarm c1State 0).1.alarm = none := by
  decide

/-- Claim C1, amended: every alarm fire increments the keep-alive counter by
10; below the 60-second ceiling a new alarm is scheduled 10 seconds later and
the browser field is untouched; at or above the ceiling no alarm is
scheduled, and an existing handle is closed (disconnected) but remains stored
in the browser field rather than being cleared to the no-browser state. -/
theorem c1_alarm_amended (s : DOState) (now : Nat) :
    (Browser.alarm s now).1.keptAliveInSeconds = s.keptAliveInSeconds + 10 ∧
    (s.keptAliveInSeconds + 10 < KEEP_BROWSER_ALIVE_IN_SECONDS →
      (Browser.alarm s now).1.alarm = some (now + 10 * 1000) ∧
      (Browser.alarm s now).1.browser = s.browser) ∧
    (KEEP_BROWSER_ALIVE_IN_SECONDS ≤ s.keptAliveInSeconds + 10 →
      (Browser.alarm s now).1.alarm = none ∧
      (∀ hb, s.browser = some hb →
        (Browser.alarm s now).1.browser = some { hb with connected := false }) ∧
      (s.browser = none → (Browser.alarm s now).1.browser = none)) := by
  unfold Browser.alarm
  dsimp only
  split
  · refine ⟨rfl, fun _ => ⟨rfl, rfl⟩, fun h2 => absurd h2 (by omega)⟩
  · rename_i hge
    refine ⟨?_, fun hlt => absurd hlt (by omega), fun _ => ?_⟩
    · split <;> rfl
    refine ⟨?_, ?_, ?_⟩
    · split <;> rfl
    · intro hb hhb
      split
      · rename_i hs; rw [hs] at hhb; cases hhb; rfl
      · rename_i hs; rw [hs] at hhb; cases hhb
    · intro hn
      split
      · rename_i hs; rw [hn] at hs; cases hs
      · simpa using hn

/-- Witness for the amended C1 claim at a concrete state on each side of the
ceiling. -/
theorem c1_alarm_amended_witness :
    ((Browser.alarm ⟨0, none, none⟩ 0).1.keptAliveInSeconds = 0 + 10 ∧
      (0 + 10 < KEEP_BROWSER_ALIVE_IN_SECONDS →
        (Browser.alarm ⟨0, none, none⟩ 0).1.alarm = some (0 + 10 * 1000) ∧
        (Browser.alarm ⟨0, none, none⟩ 0).1.browser = (⟨0, none, none⟩ : DOState).browser) ∧
      (KEEP_BROWSER_ALIVE_IN_SECONDS ≤ 0 + 10 →
        (Browser.alarm ⟨0, none, none⟩ 0).1.alarm = none ∧
        (∀ hb, (⟨0, none, none⟩ : DOState).browser = some hb →
          (Browser.alarm ⟨0, none, none⟩ 0).1.browser = some { hb with connected := false }) ∧
        ((⟨0, none, none⟩ : DOState).browser = none →
          (Browser.alarm ⟨0, none, none⟩ 0).1.browser = none))) ∧
    (Browser.alarm c1State 7).1.keptAliveInSeconds = c1State.keptAliveInSeconds + 10 :=
  ⟨c1_alarm_amended ⟨0, none, none⟩ 0, (c1_alarm_amended c1State 7).1⟩

set_option maxRecDepth 100000 in
/-- Claim C2, counterexample: `{"json":{"a":1,"b":2}}` and
`{"json":{"b":2,"a":1}}` are semantically equal option payloads differing
only in field order, yet they canonicalize to different strings and hash to
different cache keys — canonicalization is order-sensitive. -/
theorem c2_canonicalization_counterexample :
    (superjsonParse c2s1).isSome = true ∧ (superjsonParse c2s2).isSome = true ∧
    JVal.equiv ((superjsonParse c2s1).getD .null) ((superjsonParse c2s2).getD .null) = true ∧
    canonicalizeOptions c2s1 ≠ canonicalizeOptions c2s2 ∧
    hashString ((canonicalizeOptions c2s1).getD "") ≠
      hashString ((canonicalizeOptions c2s2).getD "") := by
  decide

/-- Claim C2, amended: two option payloads that decode to the same record
(same fields with same values **in the same order**, differing only in
irrelevant formatting such as insignificant whitespace) canonicalize to the
same string, and the Fingerprint Hasher therefore produces the same CacheKey;
field order, however, is preserved by canonicalization and does affect the
key. -/
theorem c2_canonicalization_amended (p1 p2 : String) (v : JVal)
    (h1 : superjsonParse p1 = some v) (h2 : superjsonParse p2 = some v) :
    canonicalizeOptions p1 = canonicalizeOptions p2 ∧
    canonicalizeOptions p1 = some (superjsonStringify v) ∧
    hashString ((canonicalizeOptions p1).getD "") =
      hashString ((canonicalizeOptions p2).getD "") := by
  unfold canonicalizeOptions
  rw [h1, h2]
  exact ⟨rfl, rfl, rfl⟩

set_option maxRecDepth 100000 in
/-- Witness for the amended C2 claim: a compact payload and the same payload
with insignificant whitespace decode to the same record and receive the same
canonical string and cache key. -/
theorem c2_canonicalization_amended_witness :
    superjsonParse c2w1 = some c2wVal ∧ superjsonParse c2w2 = some c2wVal ∧
    (canonicalizeOptions c2w1 = canonicalizeOptions c2w2 ∧
     canonicalizeOptions c2w1 = some (superjsonStringify c2wVal) ∧
     hashString ((canonicalizeOptions c2w1).getD "") =
       hashString ((canonicalizeOptions c2w2).getD "")) :=
  ⟨rfl, rfl, c2_canonicalization_amended c2w1 c2w2 c2wVal rfl rfl⟩

set_option maxRecDepth 100000 in
/-- Claim C4, counterexample: an options payload carrying the native number
`0` for `xMax` is a native number, yet the resolved viewport width is the
default 360, not 0 — the default is substituted for every falsy resolved
value, not only for absent or unparseable ones. -/
theorem c4_numeric_coercion_counterexample :
    getNumber (some (JVal.num 0)) = some 0 ∧
    (Browser.fetch Browser.startState exCtxOk exReqZero).trace.viewport = some (360, 1600) ∧
    some ((360 : Int), (1600 : Int)) ≠ some ((0 : Int), (1600 : Int)) := by
  decide

/-- Claim C4, amended: a native number is accepted directly and a string is
parsed with `parseInt`, both at the `getNumber` stage; an absent field or a
parse failure resolves to the default (360 for `xMax`, 1600 for `yMax`), and
so does a resolved value of `0` (JavaScript `||`); a nonzero resolved number
is used as-is, and the string `"480"` resolves to the integer 480. -/
theorem c4_numeric_coercion_amended (v : Option JVal) (n : Int) (s : String) :
    getNumber (some (.num n)) = some n ∧
    getNumber (some (.str s)) = jsParseInt s ∧
    getNumber none = none ∧
    (getNumber v = none →
      orDefault (getNumber v) 360 = 360 ∧ orDefault (getNumber v) 1600 = 1600) ∧
    (∀ m, getNumber v = some m → m ≠ 0 →
      orDefault (getNumber v) 360 = m ∧ orDefault (getNumber v) 1600 = m) ∧
    orDefault (getNumber (some (.str "480"))) 360 = 480 := by
  refine ⟨rfl, rfl, rfl, ?_, ?_, by decide⟩
  · intro hnone
    rw [hnone]
    exact ⟨rfl, rfl⟩
  · intro m hm hm0
    rw [hm]
    unfold orDefault
    simp [hm0]

/-- Witness for the amended C4 claim at concrete inputs. -/
theorem c4_numeric_coercion_amended_witness :
    (getNumber (some (JVal.num 5)) = some 5 ∧
     getNumber (some (JVal.str "12px")) = jsParseInt "12px" ∧
     getNumber none = none ∧
     (getNumber (some (JVal.bool true)) = none →
       orDefault (getNumber (some (JVal.bool true))) 360 = 360 ∧
       orDefault (getNumber (some (JVal.bool true))) 1600 = 1600) ∧
     (∀ m, getNumber (some (JVal.bool true)) = some m → m ≠ 0 →
       orDefault (getNumber (some (JVal.bool true))) 360 = m ∧
       orDefault (getNumber (some (JVal.bool true))) 1600 = m) ∧
     orDefault (getNumber (some (JVal.str "480"))) 360 = 480) ∧
    orDefault (getNumber (some (JVal.bool true))) 360 = 360 :=
  ⟨c4_numeric_coercion_amended (some (JVal.bool true)) 5 "12px",
   ((c4_numeric_coercion_amended (some (JVal.bool true)) 5 "12px").2.2.2.1 rfl).1⟩

/-- Claim C7: on every request on which the Lifecycle Manager performed a
render, the keep-alive counter was zero when the render began (it is reset
immediately before) and is zero in the state the request leaves behind (it is
reset again immediately after the render completes). -/
theorem c7_render_resets_counter (s : DOState) (ctx : FetchCtx) (req : Req)
    (resp : Response) (s2 : DOState) (tr : Trace)
    (h : Browser.fetch s ctx req = .ok resp s2 tr) (hr : tr.rendered = true) :
    tr.renderStartCounter = some 0 ∧ s2.keptAliveInSeconds = 0 := by
  unfold Browser.fetch at h
  split at h
  · cases h
    exact absurd hr (by decide)
  · split at h
    · cases h
      exact absurd hr (by decide)
    · split at h
      · exact Outcome.noConfusion h
      · split at h
        · exact Outcome.noConfusion h
        · split at h
          · cases h
            exact absurd hr (by decide)
          · exact mainPath_rendered_state _ _ _ _ _ _ h hr

set_option maxRecDepth 100000 in
/-- Witness for claim C7: a concrete cache-miss request that rendered, with
the counter reset before the render and zero at the end. -/
theorem c7_render_resets_counter_witness :
    Browser.fetch Browser.startState exCtxOk exReqMain = .ok c7wResp c7wState c7wTrace ∧
    c7wTrace.rendered = true ∧
    (c7wTrace.renderStartCounter = some 0 ∧ c7wState.keptAliveInSeconds = 0) :=
  ⟨rfl, rfl,
   c7_render_resets_counter Browser.startState exCtxOk exReqMain c7wResp c7wState c7wTrace
     rfl rfl⟩

/-- Claim C9: whenever the coerced option value is the integer 0 (a native 0
or a string parsing to 0), the `||`-substitution replaces it with the
default, so the resolved viewport dimension is the default rather than 0. -/
theorem c9_zero_falls_to_default (v : Option JVal) (dflt : Int)
    (h : getNumber v = some 0) :
    orDefault (getNumber v) dflt = dflt := by
  rw [h]
  rfl

/-- Witness for claim C9: both the native number 0 and the string `"0"`
resolve to the defaults 360 and 1600. -/
theorem c9_zero_falls_to_default_witness :
    getNumber (some (JVal.num 0)) = some 0 ∧
    getNumber (some (JVal.str "0")) = some 0 ∧
    orDefault (getNumber (some (JVal.num 0))) 360 = 360 ∧
    orDefault (getNumber (some (JVal.str "0"))) 1600 = 1600 :=
  ⟨rfl, rfl, c9_zero_falls_to_default (some (JVal.num 0)) 360 rfl,
   c9_zero_falls_to_default (some (JVal.str "0")) 1600 rfl⟩


/-! ## Shape of the hex digest (hashString claim) -/

theorem hexChar_isHex (n : Nat) (h : n < 16) : isLowerHexDigit (hexChar n) = true := by
  interval_cases n <;> decide

theorem byteHexPad_length (b : Nat) : (padStart2 (byteToHex b)).length = 2 := by
  unfold byteToHex padStart2
  split <;> simp

theorem byteHexPad_hex (b : Nat) :
    ∀ c ∈ padStart2 (byteToHex b), isLowerHexDigit c = true := by
  intro c hc
  by_cases hb : b < 16
  · simp [byteToHex, padStart2, hb] at hc
    rcases hc with rfl | rfl
    · decide
    · exact hexChar_isHex b hb
  · simp [byteToHex, padStart2, hb] at hc
    rcases hc with rfl | rfl
    · exact hexChar_isHex _ (Nat.mod_lt _ (by norm_num))
    · exact hexChar_isHex _ (Nat.mod_lt _ (by norm_num))

theorem flatHex_length (l : List Nat) :
    (l.flatMap (fun b => padStart2 (byteToHex b))).length = 2 * l.length := by
  induction l with
  | nil => rfl
  | cons b rest ih =>
    simp only [List.flatMap_cons, List.length_append, ih, byteHexPad_length, List.length_cons]
    ring

theorem flatHex_hex (l : List Nat) :
    ∀ c ∈ l.flatMap (fun b => padStart2 (byteToHex b)), isLowerHexDigit c = true := by
  induction l with
  | nil => intro c hc; cases hc
  | cons b rest ih =>
    intro c hc
    rw [List.flatMap_cons] at hc
    rcases List.mem_append.mp hc with h | h
    · exact byteHexPad_hex b c h
    · exact ih c h

theorem digestBytes_length (st : Hash8) : (digestBytes st).length = 32 := rfl

theorem digestBytes_lt (st : Hash8) : ∀ b ∈ digestBytes st, b < 256 := by
  intro b hb
  simp only [digestBytes, List.mem_cons, List.not_mem_nil, or_false] at hb
  rcases hb with rfl|rfl|rfl|rfl|rfl|rfl|rfl|rfl|rfl|rfl|rfl|rfl|rfl|rfl|rfl|rfl|rfl|rfl|rfl|rfl|rfl|rfl|rfl|rfl|rfl|rfl|rfl|rfl|rfl|rfl|rfl|rfl <;>
    exact Nat.mod_lt _ (by norm_num)

theorem sha256_length (msg : List Nat) : (sha256 msg).length = 32 :=
  digestBytes_length _

theorem sha256_lt (msg : List Nat) : ∀ b ∈ sha256 msg, b < 256 :=
  fun b hb => digestBytes_lt _ b hb

set_option maxRecDepth 100000 in
theorem sha256_fips_vector :
    hashString "abc" = "ba7816bf8f01cfea414140de5dae2223b00361a396177a9cb410ff61f20015ad" := by
  decide

/-- Claim C5: `hashString` is the lowercase-hex SHA-256 digest of (the UTF-8
encoding of) its input: a pure function of the input (equal inputs give equal
digests), 64 characters long, every character a lowercase hex digit. -/
theorem c5_hashString_pure_hex (s : String) :
    hashString s = hexJoin (sha256 (utf8Encode s)) ∧
    (hashString s).length = 64 ∧
    (∀ c ∈ (hashString s).data, isLowerHexDigit c = true) ∧
    (∀ t, s = t → hashString s = hashString t) := by
  refine ⟨rfl, ?_, ?_, fun t ht => by rw [ht]⟩
  · show (hexJoin (sha256 (utf8Encode s))).length = 64
    unfold hexJoin
    have h2 := flatHex_length (sha256 (utf8Encode s))
    rw [sha256_length] at h2
    exact h2
  · intro c hc
    exact flatHex_hex (sha256 (utf8Encode s)) c hc

set_option maxRecDepth 100000 in
/-- Witness for claim C5 at the input `"abc"`, together with the FIPS 180-4
known-answer digest. -/
theorem c5_hashString_pure_hex_witness :
    (hashString "abc" = hexJoin (sha256 (utf8Encode "abc")) ∧
     (hashString "abc").length = 64 ∧
     (∀ c ∈ (hashString "abc").data, isLowerHexDigit c = true) ∧
     (∀ t, "abc" = t → hashString "abc" = hashString t)) ∧
    hashString "abc" = "ba7816bf8f01cfea414140de5dae2223b00361a396177a9cb410ff61f20015ad" :=
  ⟨c5_hashString_pure_hex "abc", by decide⟩


/-! ## Alarm arming on the main path (keep-alive claim) -/

theorem mainPath_alarm (s : DOState) (ctx : FetchCtx) (v : String)
    (resp : Response) (s2 : DOState) (tr : Trace)
    (h : Browser.mainPath s ctx v = .ok resp s2 tr) :
    (s.alarm = none → s2.alarm = some (ctx.now + 10 * 1000)) ∧
    (∀ t, s.alarm = some t → s2.alarm = some t) := by
  unfold Browser.mainPath at h
  split at h
  · exact Outcome.noConfusion h
  · dsimp only at h
    split at h
    · exact Outcome.noConfusion h
    · rename_i img s3 tr4 heq
      cases h
      have h3 : s3.alarm = s.alarm := by
        rw [(renderStage_some_alarm _ _ _ _ _ _ _ _ _ heq).1, launchIfNeeded_alarm]
      constructor
      · intro hn
        exact armAlarmIfNone_alarm_of_none _ _ _ (h3.trans hn)
      · intro t ht
        exact armAlarmIfNone_alarm_of_some _ _ _ t (h3.trans ht)

/-- Claim C8, counterexample: a handled favicon request leaves an unarmed
keep-alive timer unarmed — the arming step runs only on the main path, not
"immediately after handling a request" in general. -/
theorem c8_arm_counterexample :
    Browser.startState.alarm = none ∧
    (Browser.fetch Browser.startState exCtxLaunchFail exReqFavicon).isOk = true ∧
    (Browser.fetch Browser.startState exCtxLaunchFail exReqFavicon).state.alarm = none := by
  decide

/-- Claim C8, amended: immediately after handling a request that reached the
main path (our proxy: the response carries the `image/jpeg` content type), if
no keep-alive timer was scheduled one is armed to fire 10 seconds from now,
and an already-scheduled timer is left unchanged; requests answered by an
early return (favicon, missing `url`, missing `options`) leave the timer
state untouched. -/
theorem c8_arm_amended (s : DOState) (ctx : FetchCtx) (req : Req)
    (resp : Response) (s2 : DOState) (tr : Trace)
    (h : Browser.fetch s ctx req = .ok resp s2 tr)
    (hmain : resp.contentType = some "image/jpeg") :
    (s.alarm = none → s2.alarm = some (ctx.now + 10 * 1000)) ∧
    (∀ t, s.alarm = some t → s2.alarm = some t) := by
  unfold Browser.fetch at h
  split at h
  · cases h
    exact absurd hmain (by decide)
  · split at h
    · cases h
      exact absurd hmain (by decide)
    · split at h
      · exact Outcome.noConfusion h
      · split at h
        · exact Outcome.noConfusion h
        · split at h
          · cases h
            exact absurd hmain (by decide)
          · exact mainPath_alarm _ _ _ _ _ _ h

set_option maxRecDepth 100000 in
/-- Witness for the amended C8 claim: the concrete main-path request arms the
alarm for 10 seconds after `Date.now()`. -/
theorem c8_arm_amended_witness :
    c7wResp.contentType = some "image/jpeg" ∧
    Browser.startState.alarm = none ∧
    ((Browser.startState.alarm = none → c7wState.alarm = some (exCtxOk.now + 10 * 1000)) ∧
     (∀ t, Browser.startState.alarm = some t → c7wState.alarm = some t)) :=
  ⟨rfl, rfl,
   c8_arm_amended Browser.startState exCtxOk exReqMain c7wResp c7wState c7wTrace rfl rfl⟩


/-- Claim C6, counterexample: a request whose target URL's query is `?%` has
no decodable `options` parameter, yet the handler does not answer with the
guidance text — `decodeURIComponent` throws while parsing the query and the
request fails with an unhandled exception. -/
theorem c6_guidance_counterexample :
    hasSub "/favicon.ico" exReqBadQuery.url = false ∧
    parseSearchParams "?%" = none ∧
    (Browser.fetch Browser.startState exCtxLaunchFail exReqBadQuery).isOk = false := by
  decide

/-- Claim C6, amended: a request without a top-level `url` parameter receives
the exact 200 plain-text guidance `"Please add an ?url=https://example.com/
parameter"`, and a request whose target URL's query **decodes without error**
but lacks a truthy string `options` parameter receives the exact 200
plain-text guidance `"Please add options to your url"`; neither path throws.
A query whose percent-escapes do not decode, however, makes the request
throw before the options check. -/
theorem c6_guidance_amended (s : DOState) (ctx : FetchCtx) (req : Req)
    (hfav : hasSub "/favicon.ico" req.url = false) :
    (req.urlParam = none →
      Browser.fetch s ctx req =
        .ok { status := 200,
              body := .text "Please add an ?url=https://example.com/ parameter",
              contentType := none } s Trace.init) ∧
    (∀ u search params, req.urlParam = some u → req.target = some search →
      parseSearchParams search = some params → truthyStringOption params = none →
      Browser.fetch s ctx req =
        .ok { status := 200, body := .text "Please add options to your url",
              contentType := none } s Trace.init) := by
  constructor
  · intro hurl
    unfold Browser.fetch
    rw [hurl]
    simp [hfav, missingUrlResponse]
  · intro u search params hurl htgt hps hopt
    unfold Browser.fetch
    rw [hurl, htgt]
    dsimp only
    rw [hps]
    dsimp only
    rw [hopt]
    simp [hfav, missingOptionsResponse]

set_option maxRecDepth 100000 in
/-- Witness for the amended C6 claim at concrete requests for both guidance
messages. -/
theorem c6_guidance_amended_witness :
    hasSub "/favicon.ico" exReqNoUrl.url = false ∧
    exReqNoUrl.urlParam = none ∧
    Browser.fetch Browser.startState exCtxLaunchFail exReqNoUrl =
      .ok { status := 200,
            body := .text "Please add an ?url=https://example.com/ parameter",
            contentType := none } Browser.startState Trace.init :=
  ⟨rfl, rfl,
   (c6_guidance_amended Browser.startState exCtxLaunchFail exReqNoUrl rfl).1 rfl⟩


theorem launchIfNeeded_fail (s : DOState) (ctx : FetchCtx) (tr : Trace) (e : String)
    (hb : s.browser = none) (hl : ctx.launch = .error e) :
    launchIfNeeded s ctx tr =
      (s, (tr.log "Browser DO: Starting new instance").log
            ("Browser DO: Could not start browser instance. Error: " ++ e)) := by
  unfold launchIfNeeded
  rw [hb, hl]
  rfl

set_option maxRecDepth 100000 in
/-- Claim C3, counterexample: when a stale **disconnected** handle is still
stored (so no *live* browser handle exists) and the launch fails, the request
does not continue without a browser: the truthy stale handle sends it into
the render branch, `newPage()` on the dead browser rejects, and the request
throws instead of returning an empty-bodied success. -/
theorem c3_launch_failure_counterexample :
    exStateStale.browser = some ⟨7, false⟩ ∧
    exCtxLaunchFail.launch = .error "launch failed" ∧
    (Browser.fetch exStateStale exCtxLaunchFail exReqMain).isOk = false ∧
    (Browser.fetch exStateStale exCtxLaunchFail exReqMain).trace.renderAttempted = true := by
  refine ⟨rfl, rfl, by decide, by decide⟩

/-- Claim C3, amended: on a request that reaches the launch step with an
**empty** browser field (`this.browser === null`) and a failing launch, the
failure is logged and the request proceeds without a browser: the render
branch is skipped, nothing is written to the cache, and on a cache miss the
response is a status-200 response with an empty body and the `image/jpeg`
content type.  (If instead a stale disconnected handle is stored, the render
branch is entered and the request throws.) -/
theorem c3_launch_failure_amended (s : DOState) (ctx : FetchCtx) (req : Req)
    (u search : String) (params : ParsedParams) (v : String) (pobj : JVal) (e : String)
    (hfav : hasSub "/favicon.ico" req.url = false)
    (hurl : req.urlParam = some u)
    (htgt : req.target = some search)
    (hps : parseSearchParams search = some params)
    (hopt : truthyStringOption params = some v)
    (hparse : superjsonParse v = some pobj)
    (hbrowser : s.browser = none)
    (hlaunch : ctx.launch = .error e)
    (hmiss : ctx.kv (hashString (superjsonStringify pobj)) = none) :
    ∃ s2 tr, Browser.fetch s ctx req =
        .ok { status := 200, body := .empty, contentType := some "image/jpeg" } s2 tr ∧
      tr.renderAttempted = false ∧ tr.puts = [] ∧ s2.browser = none ∧
      ("Browser DO: Could not start browser instance. Error: " ++ e) ∈ tr.logs := by
  unfold Browser.fetch
  rw [hurl, htgt]
  dsimp only
  rw [hps]
  dsimp only
  rw [hopt]
  simp only [hfav, Bool.false_eq_true, if_false]
  unfold Browser.mainPath
  rw [hparse]
  dsimp only
  rw [launchIfNeeded_fail s ctx _ e hbrowser hlaunch]
  dsimp only
  rw [hmiss, renderStage_miss_nobrowser _ _ _ _ _ hbrowser]
  dsimp only
  unfold armAlarmIfNone
  cases halarm : s.alarm with
  | none =>
    dsimp only
    refine ⟨_, _, rfl, rfl, rfl, by simp only [hbrowser], ?_⟩
    simp [Trace.log, Trace.init]
  | some t =>
    dsimp only
    refine ⟨_, _, rfl, rfl, rfl, by simp only [hbrowser], ?_⟩
    simp [Trace.log, Trace.init]

set_option maxRecDepth 100000 in
/-- Witness for the amended C3 claim: from the fresh state, with a failing
launch and an empty cache, the concrete request gets a 200 empty-body
`image/jpeg` response, no render, no KV write, and the logged failure. -/
theorem c3_launch_failure_amended_witness :
    Browser.startState.browser = none ∧
    exCtxLaunchFail.launch = .error "launch failed" ∧
    (∃ s2 tr, Browser.fetch Browser.startState exCtxLaunchFail exReqMain =
        .ok { status := 200, body := .empty, contentType := some "image/jpeg" } s2 tr ∧
      tr.renderAttempted = false ∧ tr.puts = [] ∧ s2.browser = none ∧
      ("Browser DO: Could not start browser instance. Error: " ++ "launch failed") ∈ tr.logs) :=
  ⟨rfl, rfl,
   c3_launch_failure_amended Browser.startState exCtxLaunchFail exReqMain
     "t" "?options=%7B%22json%22%3A%7B%22xMax%22%3A480%7D%7D"
     [("options", .str "\x7b\"json\":\x7b\"xMax\":480\x7d\x7d")]
     "\x7b\"json\":\x7b\"xMax\":480\x7d\x7d"
     (.obj [("xMax", .num 480)]) "launch failed"
     rfl rfl rfl rfl rfl rfl rfl rfl rfl⟩


theorem mainPath_agree (s : DOState) (ctx : FetchCtx) (v : String) (hb : BrowserHandle)
    (hl : ctx.launch = .ok hb) (hc : hb.connected = true) :
    outcomesAgree (Browser.mainPath s ctx v) (defaultMainPath ctx v) := by
  unfold Browser.mainPath defaultMainPath
  cases hp : superjsonParse v with
  | none => exact trivial
  | some pobj =>
    dsimp only
    obtain ⟨hb2, hbr2, hc2⟩ := launchIfNeeded_connected s ctx
      { Trace.init with canonical := some (superjsonStringify pobj),
                        cacheKey := some (hashString (superjsonStringify pobj)) } hb hl hc
    cases hkv : ctx.kv (hashString (superjsonStringify pobj)) with
    | some b =>
      rw [renderStage_hit]
      dsimp only
      refine ⟨rfl, ?_, ?_, ?_, ?_⟩
      · rw [(armAlarmIfNone_trace _ _ _).1, (launchIfNeeded_trace _ _ _).1]
      · rw [(armAlarmIfNone_trace _ _ _).2.1, (launchIfNeeded_trace _ _ _).2.1]
      · rw [(armAlarmIfNone_trace _ _ _).2.2.1, (launchIfNeeded_trace _ _ _).2.2.1]
      · rw [(armAlarmIfNone_trace _ _ _).2.2.2.1, (launchIfNeeded_trace _ _ _).2.2.2.1]
    | none =>
      rw [renderStage_miss_connected _ _ _ _ _ hb2 hbr2 hc2, hl]
      dsimp only
      simp only [hc, if_true]
      cases hx : jsGet pobj "xMax" with
      | error u1 =>
        dsimp only
        exact trivial
      | ok mx =>
        cases hy : jsGet pobj "yMax" with
        | error u2 =>
          dsimp only
          exact trivial
        | ok my =>
          dsimp only
          refine ⟨rfl, ?_, ?_, ?_, ?_⟩
          · rw [(armAlarmIfNone_trace _ _ _).1]
            dsimp only
            rw [(launchIfNeeded_trace _ _ _).1]
          · rw [(armAlarmIfNone_trace _ _ _).2.1]
            dsimp only
            rw [(launchIfNeeded_trace _ _ _).2.1]
          · rw [(armAlarmIfNone_trace _ _ _).2.2.1]
          · rw [(armAlarmIfNone_trace _ _ _).2.2.2.1]
            dsimp only
            rw [(launchIfNeeded_trace _ _ _).2.2.2.1]

/-- Claim C10: whenever the browser launch succeeds (with a connected
handle), the Durable Object handler and the per-request handler in the same
file either both throw or produce equal responses (same body, status and
content type), and agree on the canonical options string, the cache key, the
resolved viewport and the KV writes with their 24-hour TTL — for every
Durable Object state, i.e. the two variants differ only in browser lifecycle
management. -/
theorem c10_variants_agree (s : DOState) (ctx : FetchCtx) (req : Req) (hb : BrowserHandle)
    (hl : ctx.launch = .ok hb) (hc : hb.connected = true) :
    outcomesAgree (Browser.fetch s ctx req) (defaultFetch ctx req) := by
  unfold Browser.fetch defaultFetch
  by_cases hfav : hasSub "/favicon.ico" req.url = true
  · rw [if_pos hfav, if_pos hfav]
    exact ⟨rfl, rfl, rfl, rfl, rfl⟩
  · rw [if_neg hfav, if_neg hfav]
    cases hu : req.urlParam with
    | none => exact ⟨rfl, rfl, rfl, rfl, rfl⟩
    | some u =>
      dsimp only
      cases ht : req.target with
      | none => exact trivial
      | some search =>
        dsimp only
        cases hps : parseSearchParams search with
        | none => exact trivial
        | some params =>
          dsimp only
          cases ho : truthyStringOption params with
          | none => exact ⟨rfl, rfl, rfl, rfl, rfl⟩
          | some v => exact mainPath_agree s ctx v hb hl hc

/-- Witness for claim C10 at a concrete state, context and request. -/
theorem c10_variants_agree_witness :
    exCtxOk.launch = .ok ⟨1, true⟩ ∧ (⟨1, true⟩ : BrowserHandle).connected = true ∧
    outcomesAgree (Browser.fetch Browser.startState exCtxOk exReqMain)
      (defaultFetch exCtxOk exReqMain) :=
  ⟨rfl, rfl, c10_variants_agree Browser.startState exCtxOk exReqMain ⟨1, true⟩ rfl rfl⟩
